import Mathlib

/-!
Shallow embedding of the `saml` package (identity-provider issuance pipeline)
and of its `xmlsec` subpackage (a wrapper around the xmlsec1 command), with
theorems about recipient resolution, diagnostic classification, the
security-exception policy, attribute-statement construction, response
assembly, argument-list construction and the gateway's stream handling.

Byte strings are modelled as `List Char`; Go's `strings.Contains`,
`strings.HasPrefix` and `strings.TrimSpace` are modelled by `List.IsInfix`,
`List.IsPrefix` and whitespace trimming at both ends.  Fallible operations
return `Option`/`Except`, and the outcome of the external xmlsec1 process is
an explicit input (exit status plus the bytes drained from its two output
streams).
-/

namespace Saml


/-- Characters treated as white space by Go's `strings.TrimSpace`
(`unicode.IsSpace`), restricted to the Latin-1 range. -/
def goIsSpace (c : Char) : Bool :=
  c = ' ' || c = '\t' || c = '\n' || c = '\x0b' || c = '\x0c' || c = '\r' ||
  c = '\x85' || c = '\xa0'

/-- Left half of Go's `strings.TrimSpace`. -/
def trimLeft (s : List Char) : List Char := s.dropWhile goIsSpace

/-- Right half of Go's `strings.TrimSpace`. -/
def trimRight (s : List Char) : List Char := (s.reverse.dropWhile goIsSpace).reverse

/-- Go's `strings.TrimSpace`: drop white space at both ends. -/
def trimSpace (s : List Char) : List Char := trimRight (trimLeft s)

/-- Go error values produced by the embedded code: `errorString` stands for
the untyped errors (`fmt.Errorf`, `errors.New`), the three `err...`
constructors for the typed error structs of package xmlsec, and `execError`
for a raw process error surfaced without diagnostic output. -/
inductive GoErr where
  | errorString (msg : List Char)
  | errValidityError (msg : List Char)
  | errSelfSignedCertificate (msg : List Char)
  | errUnknownIssuer (msg : List Char)
  | execError
deriving DecidableEq

/-- The message `xmlsecErr` builds:
`fmt.Errorf("xmlsec: %s", strings.TrimSpace(s))` (src/xmlsec/xmlsec.go:339). -/
def xmlsecMsg (s : List Char) : List Char := "xmlsec: ".toList ++ trimSpace s

/-- `xmlsecErr` (src/xmlsec/xmlsec.go:338-356): classify the diagnostic
output of xmlsec1.  `none` models the `nil` return; the substring checks
after the "OK" prefix check are performed on `err.Error()`, which is
`xmlsecMsg s`. -/
def xmlsecErr (s : List Char) : Option GoErr :=
  if "OK".toList <+: s then none
  else if "signature failed".toList <:+: xmlsecMsg s then
    some (GoErr.errorString (xmlsecMsg s))
  else if "validity error".toList <:+: xmlsecMsg s then
    some (GoErr.errValidityError (xmlsecMsg s))
  else if "msg=self signed certificate".toList <:+: xmlsecMsg s then
    some (GoErr.errSelfSignedCertificate (xmlsecMsg s))
  else if "msg=unable to get local issuer certificate".toList <:+: xmlsecMsg s then
    some (GoErr.errUnknownIssuer (xmlsecMsg s))
  else some (GoErr.errorString (xmlsecMsg s))

/-- `isValidityError` (src/xmlsec/xmlsec.go:358-360):
`bytes.Contains(output, []byte("validity error"))`. -/
def isValidityError (output : List Char) : Bool :=
  decide ("validity error".toList <:+: output)

/-- Observable outcome of one run of the external xmlsec1 process, after the
wrapper has drained both streams: whether `cmd.Wait` reported an error, the
bytes read from stdout and the bytes read from stderr. -/
structure ProcRun where
  waitErr : Bool
  out : List Char
  diag : List Char
deriving DecidableEq

/-- Error returned by `Verify` (src/xmlsec/xmlsec.go:260-267) as a function
of the process run:
`if err := cmd.Wait(); err != nil || isValidityError(resErr) { if len(resErr) > 0 { return xmlsecErr(string(res) + "\n" + string(resErr)) }; return err }`. -/
def verifyResult (r : ProcRun) : Option GoErr :=
  if r.waitErr || isValidityError r.diag then
    if 0 < r.diag.length then xmlsecErr (r.out ++ '\n' :: r.diag)
    else if r.waitErr then some GoErr.execError else none
  else none

/-- Result of `Sign` (src/xmlsec/xmlsec.go:328-335): the produced bytes and
the error, as a function of the process run. -/
def signResult (r : ProcRun) : Option (List Char) × Option GoErr :=
  if r.waitErr || isValidityError r.diag then
    if 0 < r.diag.length then (some r.out, xmlsecErr (r.out ++ '\n' :: r.diag))
    else (none, if r.waitErr then some GoErr.execError else none)
  else (some r.out, none)

/-- `SecurityOpts` (second saml source file): the two independent trust
waivers attached to the identity-provider configuration. -/
structure SecurityOpts where
  AllowSelfSignedCert : Bool
  TrustUnknownAuthority : Bool
deriving DecidableEq

/-- `IsSecurityException` (second saml source file): whether the given error
is a security exception not bypassed by `SecurityOpts`.  The two type
assertions of the Go code become a match on the error's constructor. -/
def IsSecurityException (err : GoErr) (opts : SecurityOpts) : Bool :=
  match err with
  | GoErr.errSelfSignedCertificate _ => if opts.AllowSelfSignedCert then false else true
  | GoErr.errUnknownIssuer _ => if opts.TrustUnknownAuthority then false else true
  | _ => true

/-- `ValidationOptions` (src/xmlsec/xmlsec.go:22-26). -/
structure ValidationOptions where
  DTDFile : String
  EnableIDAttrHack : Bool
  IDAttrs : List String
deriving DecidableEq

/-- `attrNameResponse` (src/xmlsec/xmlsec.go:17). -/
def attrNameResponse : String := "urn:oasis:names:tc:SAML:2.0:protocol:Response"

/-- `attrNameAssertion` (src/xmlsec/xmlsec.go:18). -/
def attrNameAssertion : String := "urn:oasis:names:tc:SAML:2.0:assertion:Assertion"

/-- `attrNameAuthnRequest` (src/xmlsec/xmlsec.go:19). -/
def attrNameAuthnRequest : String := "urn:oasis:names:tc:SAML:2.0:protocol:AuthnRequest"

/-- `applyOptions` (src/xmlsec/xmlsec.go:362-381); the loop over
`opts.IDAttrs` is the fold appending `--id-attr:ID v` for each entry. -/
def applyOptions (args : List String) (opts : Option ValidationOptions) : List String :=
  match opts with
  | none => args
  | some o =>
    let args := if o.DTDFile ≠ "" then args ++ ["--dtd-file", o.DTDFile] else args
    if o.EnableIDAttrHack then
      o.IDAttrs.foldl (fun acc v => acc ++ ["--id-attr:ID", v])
        (args ++ ["--id-attr:ID", attrNameResponse, "--id-attr:ID", attrNameAssertion,
          "--id-attr:ID", attrNameAuthnRequest])
    else args

/-- Argument list built by `Verify` (src/xmlsec/xmlsec.go:205-216). -/
def verifyArgs (publicCertPath : String) (opts : Option ValidationOptions) : List String :=
  applyOptions ["xmlsec1", "--verify", "--pubkey-cert-pem", publicCertPath,
    "--enabled-reference-uris", "empty,same-doc"] opts ++ ["/dev/stdin"]

/-- Argument list built by `Sign` (src/xmlsec/xmlsec.go:271-284). -/
def signArgs (privateKeyPath : String) (opts : Option ValidationOptions) : List String :=
  applyOptions ["xmlsec1", "--sign", "--privkey-pem", privateKeyPath,
    "--enabled-reference-uris", "empty,same-doc"] opts ++
    ["--output", "/dev/stdout", "/dev/stdin"]

/-- Constant strings `Verify` can place in its argument list. -/
def verifyFixedArgs : List String :=
  ["xmlsec1", "--verify", "--pubkey-cert-pem", "--enabled-reference-uris",
    "empty,same-doc", "--dtd-file", "--id-attr:ID", attrNameResponse,
    attrNameAssertion, attrNameAuthnRequest, "/dev/stdin"]

/-- Constant strings `Sign` can place in its argument list. -/
def signFixedArgs : List String :=
  ["xmlsec1", "--sign", "--privkey-pem", "--enabled-reference-uris",
    "empty,same-doc", "--dtd-file", "--id-attr:ID", attrNameResponse,
    attrNameAssertion, attrNameAuthnRequest, "--output", "/dev/stdout", "/dev/stdin"]

/-- The stream operations a gateway invocation performs on the child
process. -/
inductive GatewayOp where
  | start
  | writeInput
  | closeInput
  | drainOut
  | drainErr
  | wait
deriving DecidableEq, BEq

/-- Operation order in `Sign` (src/xmlsec/xmlsec.go:306-333), as written:
`cmd.Start()`, `stdin.Write(in)`, `stdin.Close()`, `ReadAll(outbr)`,
`ReadAll(errbr)`, `cmd.Wait()` — one straight-line sequence, no
goroutines. -/
def signOps : List GatewayOp :=
  [GatewayOp.start, GatewayOp.writeInput, GatewayOp.closeInput,
    GatewayOp.drainOut, GatewayOp.drainErr, GatewayOp.wait]

/-- Operation order in `Encrypt` (src/xmlsec/xmlsec.go:110-137). -/
def encryptOps : List GatewayOp :=
  [GatewayOp.start, GatewayOp.writeInput, GatewayOp.closeInput,
    GatewayOp.drainOut, GatewayOp.drainErr, GatewayOp.wait]

/-- Operation order in `Verify` (src/xmlsec/xmlsec.go:238-260). -/
def verifyOps : List GatewayOp :=
  [GatewayOp.start, GatewayOp.writeInput, GatewayOp.closeInput,
    GatewayOp.drainOut, GatewayOp.drainErr, GatewayOp.wait]

/-- Operation order in `Decrypt` (src/xmlsec/xmlsec.go:170-192). -/
def decryptOps : List GatewayOp :=
  [GatewayOp.start, GatewayOp.writeInput, GatewayOp.closeInput,
    GatewayOp.drainOut, GatewayOp.drainErr, GatewayOp.wait]

/-- A drain of either output stream appears before the input stream has been
closed: on a sequential trace, this is what "the result and diagnostic
streams are drained concurrently with input writing" would require. -/
def drainsDuringWrite (ops : List GatewayOp) : Bool :=
  (ops.takeWhile (fun o => o != GatewayOp.closeInput)).any
    (fun o => o == GatewayOp.drainOut || o == GatewayOp.drainErr)

/-- Instants and durations (`time.Time` / `time.Duration`), as abstract
integers; only equality and addition of a duration are used. -/
abbrev Time := Int

/-- `IssueLifetime` (second saml source file): 90 seconds. -/
def IssueLifetime : Time := 90

/-- Modelled from the spec: SAML constants declared elsewhere in the
repository (not under src/); the values are the standard SAML 2.0 URNs the
source quotes literally at its use sites. -/
def HTTPPostBinding : String := "urn:oasis:names:tc:SAML:2.0:bindings:HTTP-POST"

/-- Modelled from the spec: the redirect binding URN. -/
def HTTPRedirectBinding : String := "urn:oasis:names:tc:SAML:2.0:bindings:HTTP-Redirect"

/-- Modelled from the spec: the success status code URN. -/
def StatusSuccess : String := "urn:oasis:names:tc:SAML:2.0:status:Success"

/-- `Session` (src/unnamed/part_000:21-36). -/
structure Session where
  ID : String
  CreateTime : Time
  ExpireTime : Time
  Index : String
  NameID : String
  Groups : List String
  UserID : String
  UserFullname : String
  UserName : String
  UserEmail : String
  UserCommonName : String
  UserSurname : String
  UserGivenName : String
deriving DecidableEq

/-- An assertion-consumer endpoint of the service-provider metadata; the
fields the embedded source reads. -/
structure IndexedEndpoint where
  Binding : String
  Location : String
deriving DecidableEq

/-- Key material advertised in metadata; the fields the embedded source
reads. -/
structure KeyInfo where
  Certificate : String
deriving DecidableEq

/-- A key descriptor of the service-provider metadata. -/
structure KeyDescriptor where
  Use : String
  KeyInfo : KeyInfo
deriving DecidableEq

/-- The SP SSO descriptor; the fields the embedded source reads. -/
structure SPSSODescriptor where
  AssertionConsumerService : List IndexedEndpoint
  KeyDescriptor : List KeyDescriptor
deriving DecidableEq

/-- Service-provider metadata; the fields the embedded source reads.  The
`SPSSODescriptor` pointer becomes an `Option`. -/
structure Metadata where
  EntityID : String
  SPSSODescriptor : Option SPSSODescriptor
deriving DecidableEq

/-- `Issuer` of a request, assertion or response. -/
structure Issuer where
  Format : String
  Value : String
deriving DecidableEq

/-- The inbound `AuthnRequest`; the fields the embedded source reads. -/
structure AuthnRequest where
  ID : String
  AssertionConsumerServiceURL : String
  Issuer : Issuer
deriving DecidableEq

/-- A name identifier. -/
structure NameID where
  Format : String
  NameQualifier : String
  SPNameQualifier : String
  Value : String
deriving DecidableEq

/-- Subject-confirmation data. -/
structure SubjectConfirmationData where
  Address : String
  InResponseTo : String
  NotOnOrAfter : Time
  Recipient : String
deriving DecidableEq

/-- A subject confirmation. -/
structure SubjectConfirmation where
  Method : String
  SubjectConfirmationData : SubjectConfirmationData
deriving DecidableEq

/-- An assertion subject; the two pointers become `Option`s. -/
structure Subject where
  NameID : Option NameID
  SubjectConfirmation : Option SubjectConfirmation
deriving DecidableEq

/-- An audience value. -/
structure Audience where
  Value : String
deriving DecidableEq

/-- An audience restriction; the `Audience` pointer becomes an `Option`. -/
structure AudienceRestriction where
  Audience : Option Audience
deriving DecidableEq

/-- Assertion conditions. -/
structure Conditions where
  NotBefore : Time
  NotOnOrAfter : Time
  AudienceRestriction : Option AudienceRestriction
deriving DecidableEq

/-- A subject locality. -/
structure SubjectLocality where
  Address : String
deriving DecidableEq

/-- An authentication-context class reference. -/
structure AuthnContextClassRef where
  Value : String
deriving DecidableEq

/-- An authentication context. -/
structure AuthnContext where
  AuthnContextClassRef : Option AuthnContextClassRef
deriving DecidableEq

/-- An authentication statement. -/
structure AuthnStatement where
  AuthnInstant : Time
  SessionIndex : String
  SubjectLocality : SubjectLocality
  AuthnContext : AuthnContext
deriving DecidableEq

/-- An attribute value; the Go field `Type` is written `«Type»`. -/
structure AttributeValue where
  «Type» : String
  Value : String
deriving DecidableEq

/-- An attribute of the attribute statement. -/
structure Attribute where
  FriendlyName : String
  Name : String
  NameFormat : String
  Values : List AttributeValue
deriving DecidableEq

/-- An attribute statement. -/
structure AttributeStatement where
  Attributes : List Attribute
deriving DecidableEq

/-- Modelled from the spec: the embedded signature template produced by
`xmlsec.DefaultSignature` (in the xmlsec templates file, not under src/),
carrying the issuer's PEM-encoded certificate. -/
structure Signature where
  Cert : List Char
deriving DecidableEq

/-- An issued assertion (the fields `MakeAssertion` populates); Go pointer
fields become `Option`s. -/
structure Assertion where
  ID : String
  IssueInstant : Time
  Version : String
  Issuer : Option Issuer
  Signature : Option Signature
  Subject : Option Subject
  Conditions : Option Conditions
  AuthnStatement : Option AuthnStatement
  AttributeStatement : Option AttributeStatement
deriving DecidableEq

/-- A status code. -/
structure StatusCode where
  Value : String
deriving DecidableEq

/-- A response status. -/
structure Status where
  StatusCode : StatusCode
deriving DecidableEq

/-- The encrypted-assertion payload; the `[]byte` blob (nil-able) becomes
an `Option (List Char)`. -/
structure EncryptedAssertion where
  EncryptedData : Option (List Char)
deriving DecidableEq

/-- The outer protocol response (the fields `MakeResponse` populates). -/
structure Response where
  Destination : String
  ID : String
  InResponseTo : String
  IssueInstant : Time
  Version : String
  Issuer : Option Issuer
  Status : Option Status
  EncryptedAssertion : Option EncryptedAssertion
deriving DecidableEq

/-- `IdentityProvider` (src/unnamed/part_000:56-88), without the
`pemCert` atomic cache (an opaque certificate cache the claims do not
mention). -/
structure IdentityProvider where
  EntityID : String
  MetadataURL : String
  SSOURL : String
  SecurityOpts : SecurityOpts
  KeyFile : String
  CertFile : String
  PrivkeyPEM : String
  PubkeyPEM : String
  SPMetadataURL : String
  SPMetadata : Option Metadata
  SPAcsURL : String
deriving DecidableEq

/-- `IdpAuthnRequest` (src/unnamed/part_000:39-53); the `IDP` pointer is
inlined as a field, pointers and nil-able buffers become `Option`s. -/
structure IdpAuthnRequest where
  IDP : IdentityProvider
  Address : String
  RelayState : String
  RequestBuffer : List Char
  Request : AuthnRequest
  ServiceProviderMetadata : Option Metadata
  ACSEndpoint : Option IndexedEndpoint
  Assertion : Option Assertion
  AssertionBuffer : Option (List Char)
  Response : Option Response
deriving DecidableEq

/-- The recipient-resolution closure inside `MakeAssertion`
(src/unnamed/part_000:347-361).  The Go `switch` takes the first matching
case; note that when service-provider metadata with an SSO descriptor is
present but no assertion-consumer endpoint carries the HTTP-POST binding,
the loop falls through to the `return ""` after the switch — the `default`
case (the request-declared URL) is only reached when both earlier case
conditions are false. -/
def recipientOf (req : IdpAuthnRequest) : String :=
  match req.ACSEndpoint with
  | some acs => acs.Location
  | none =>
    match req.ServiceProviderMetadata with
    | some meta =>
      match meta.SPSSODescriptor with
      | some desc =>
        match desc.AssertionConsumerService.find?
            (fun acs => acs.Binding == "urn:oasis:names:tc:SAML:2.0:bindings:HTTP-POST") with
        | some acs => acs.Location
        | none => ""
      | none => req.Request.AssertionConsumerServiceURL
    | none => req.Request.AssertionConsumerServiceURL

/-- The attribute list built by `MakeAssertion`
(src/unnamed/part_000:205-311): the successive conditional appends become a
concatenation of conditional singleton blocks, in source order; the loop
over `session.Groups` becomes the `map`. -/
def makeAttributes (session : Session) : List Attribute :=
  (if session.UserName ≠ "" then
    [{ FriendlyName := "uid", Name := "urn:oid:0.9.2342.19200300.100.1.1",
       NameFormat := "urn:oasis:names:tc:SAML:2.0:attrname-format:uri",
       Values := [{ «Type» := "xs:string", Value := session.UserName }] }] else []) ++
  (if session.UserEmail ≠ "" then
    [{ FriendlyName := "eduPersonPrincipalName", Name := "urn:oid:1.3.6.1.4.1.5923.1.1.1.6",
       NameFormat := "urn:oasis:names:tc:SAML:2.0:attrname-format:uri",
       Values := [{ «Type» := "xs:string", Value := session.UserEmail }] }] else []) ++
  (if session.UserSurname ≠ "" then
    [{ FriendlyName := "sn", Name := "urn:oid:2.5.4.4",
       NameFormat := "urn:oasis:names:tc:SAML:2.0:attrname-format:uri",
       Values := [{ «Type» := "xs:string", Value := session.UserSurname }] }] else []) ++
  (if session.UserGivenName ≠ "" then
    [{ FriendlyName := "givenName", Name := "urn:oid:2.5.4.42",
       NameFormat := "urn:oasis:names:tc:SAML:2.0:attrname-format:uri",
       Values := [{ «Type» := "xs:string", Value := session.UserGivenName }] }] else []) ++
  (if session.UserCommonName ≠ "" then
    [{ FriendlyName := "cn", Name := "urn:oid:2.5.4.3",
       NameFormat := "urn:oasis:names:tc:SAML:2.0:attrname-format:uri",
       Values := [{ «Type» := "xs:string", Value := session.UserCommonName }] }] else []) ++
  (if session.UserID ≠ "" then
    [{ FriendlyName := "MASTUsername", Name := "userid", NameFormat := "",
       Values := [{ «Type» := "xs:string", Value := session.UserID }] }] else []) ++
  (if session.UserEmail ≠ "" then
    [{ FriendlyName := "MASTEmail", Name := "email", NameFormat := "",
       Values := [{ «Type» := "xs:string", Value := session.UserEmail }] }] else []) ++
  (if session.UserFullname ≠ "" then
    [{ FriendlyName := "MASTName", Name := "fullname", NameFormat := "",
       Values := [{ «Type» := "xs:string", Value := session.UserFullname }] }] else []) ++
  (if session.Groups ≠ [] then
    [{ FriendlyName := "eduPersonAffiliation", Name := "urn:oid:1.3.6.1.4.1.5923.1.1.1.1",
       NameFormat := "urn:oasis:names:tc:SAML:2.0:attrname-format:uri",
       Values := session.Groups.map
         (fun group => { «Type» := "xs:string", Value := group }) }] else [])

/-- The assertion value `MakeAssertion` assigns to `req.Assertion`
(src/unnamed/part_000:325-392).  The fresh identifier (`NewID()`), the
current instant (`Now()`) and the issuer certificate are explicit inputs;
`idpMetadata.EntityID` is `req.IDP.MetadataURL` (set so by
`IdentityProvider.Metadata`, line 153). -/
def makeAssertion (req : IdpAuthnRequest) (session : Session) (newId : String)
    (now : Time) (cert : List Char) : Assertion :=
  { ID := newId
    IssueInstant := now
    Version := "2.0"
    Issuer := some { Format := "XXX", Value := req.IDP.MetadataURL }
    Signature := some { Cert := cert }
    Subject := some
      { NameID := some
          { Format := "urn:oasis:names:tc:SAML:2.0:nameid-format:transient"
            NameQualifier := req.IDP.MetadataURL
            SPNameQualifier :=
              match req.ServiceProviderMetadata with
              | some meta => meta.EntityID
              | none => ""
            Value := session.NameID }
        SubjectConfirmation := some
          { Method := "urn:oasis:names:tc:SAML:2.0:cm:bearer"
            SubjectConfirmationData :=
              { Address := req.Address
                InResponseTo := req.Request.ID
                NotOnOrAfter := now + IssueLifetime
                Recipient := recipientOf req } } }
    Conditions := some
      { NotBefore := now
        NotOnOrAfter := now + IssueLifetime
        AudienceRestriction :=
          match req.ServiceProviderMetadata with
          | some meta => some { Audience := some { Value := meta.EntityID } }
          | none => none }
    AuthnStatement := some
      { AuthnInstant := session.CreateTime
        SessionIndex := session.Index
        SubjectLocality := { Address := req.Address }
        AuthnContext :=
          { AuthnContextClassRef := some
              { Value := "urn:oasis:names:tc:SAML:2.0:ac:classes:PasswordProtectedTransport" } } }
    AttributeStatement := some { Attributes := makeAttributes session } }

/-- The response-assembly step of `MakeResponse`
(src/unnamed/part_000:460-482), after the point where an assertion buffer
exists: build the `Response`, store it on the request, and fail if its
destination (the recipient resolved in the assertion) is empty.  `none`
models the nil-pointer panic Go would raise were the assertion or its
subject chain absent. -/
def makeResponseCore (req : IdpAuthnRequest) (rid : String) (now : Time) :
    Option (IdpAuthnRequest × Option GoErr) :=
  match req.Assertion with
  | none => none
  | some a =>
    match a.Subject with
    | none => none
    | some subj =>
      match subj.SubjectConfirmation with
      | none => none
      | some sc =>
        let resp : Response :=
          { Destination := sc.SubjectConfirmationData.Recipient
            ID := rid
            InResponseTo := req.Request.ID
            IssueInstant := now
            Version := "2.0"
            Issuer := some { Format := "urn:oasis:names:tc:SAML:2.0:nameid-format:entity",
                             Value := req.IDP.MetadataURL }
            Status := some { StatusCode := { Value := StatusSuccess } }
            EncryptedAssertion := some { EncryptedData := req.AssertionBuffer } }
        if resp.Destination = "" then
          some ({ req with Response := some resp },
            some (GoErr.errorString "missing response destination".toList))
        else
          some ({ req with Response := some resp }, none)

/-- The value `MarshalAssertion` assigns to `req.IDP.SPMetadataURL`
(src/unnamed/part_000:418-426). -/
def spMetadataURLUpdate (req : IdpAuthnRequest) : String :=
  if req.Request.Issuer.Value ≠ "" then req.Request.Issuer.Value
  else
    match req.ServiceProviderMetadata with
    | some meta => meta.EntityID
    | none => ""

/-- `GetSPMetadata` (src/unnamed/part_000:529-557) as a state transformer on
the `IdentityProvider`: a cached metadata value is returned as a copy; with
no cache and no URL it fails; otherwise the network fetch — whose parsed
outcome is the explicit input `fetched` (`none` models a transport or parse
failure, reported as a raw error) — is stored into `idp.SPMetadata`. -/
def getSPMetadata (idp : IdentityProvider) (fetched : Option Metadata) :
    IdentityProvider × Except GoErr Metadata :=
  match idp.SPMetadata with
  | some meta => (idp, Except.ok meta)
  | none =>
    if idp.SPMetadataURL = "" then
      (idp, Except.error (GoErr.errorString "missing sp metadata url".toList))
    else
      match fetched with
      | some meta => ({ idp with SPMetadata := some meta }, Except.ok meta)
      | none => (idp, Except.error GoErr.execError)

/-- The `IdentityProvider` state after `MarshalAssertion`'s success path
(src/unnamed/part_000:398-450): the only steps that write to the
`IdentityProvider` are the `SPMetadataURL` reassignment at lines 418-426 and
the metadata caching inside `GetSPCertFile → GetSPMetadata`; marshalling,
signing, encryption and key-file resolution do not touch its fields. -/
def marshalAssertionIDP (req : IdpAuthnRequest) (fetched : Option Metadata) :
    IdentityProvider :=
  (getSPMetadata { req.IDP with SPMetadataURL := spMetadataURLUpdate req } fetched).1

/-- A blank identity provider used by the concrete test inputs. -/
def idpBase : IdentityProvider :=
  { EntityID := "", MetadataURL := "", SSOURL := "", SecurityOpts := ⟨false, false⟩,
    KeyFile := "", CertFile := "", PrivkeyPEM := "", PubkeyPEM := "",
    SPMetadataURL := "", SPMetadata := none, SPAcsURL := "" }

/-- C1 counterexample input: no explicit endpoint, service-provider metadata
whose only assertion-consumer endpoint is redirect-bound, and a request that
declares a consumer-service URL. -/
def reqC1 : IdpAuthnRequest :=
  { IDP := idpBase, Address := "", RelayState := "", RequestBuffer := [],
    Request := { ID := "id-req-1", AssertionConsumerServiceURL := "https://sp.example/acs",
                 Issuer := ⟨"", ""⟩ },
    ServiceProviderMetadata := some
      { EntityID := "https://sp.example/metadata",
        SPSSODescriptor := some
          { AssertionConsumerService :=
              [{ Binding := "urn:oasis:names:tc:SAML:2.0:bindings:HTTP-Redirect",
                 Location := "https://sp.example/redirect" }],
            KeyDescriptor := [] } },
    ACSEndpoint := none, Assertion := none, AssertionBuffer := none, Response := none }

/-- C1 witness input: an explicitly supplied assertion-consumer endpoint. -/
def reqC1w : IdpAuthnRequest :=
  { IDP := idpBase, Address := "", RelayState := "", RequestBuffer := [],
    Request := { ID := "id-req-2", AssertionConsumerServiceURL := "https://sp.example/acs",
                 Issuer := ⟨"", ""⟩ },
    ServiceProviderMetadata := none,
    ACSEndpoint := some ⟨"urn:oasis:names:tc:SAML:2.0:bindings:HTTP-POST",
      "https://sp.example/post"⟩,
    Assertion := none, AssertionBuffer := none, Response := none }

/-- Session count predicted by the claim's "exactly one attribute entry per
non-empty session field" (stated from the claim's words, for comparison
with `makeAttributes`). -/
def specAttrCount (s : Session) : Nat :=
  (if s.UserName ≠ "" then 1 else 0) + (if s.UserEmail ≠ "" then 1 else 0) +
  (if s.UserSurname ≠ "" then 1 else 0) + (if s.UserGivenName ≠ "" then 1 else 0) +
  (if s.UserCommonName ≠ "" then 1 else 0) + (if s.UserID ≠ "" then 1 else 0) +
  (if s.UserFullname ≠ "" then 1 else 0) + (if s.Groups ≠ [] then 1 else 0)

/-- C4 counterexample input: a session whose only non-empty field is
`UserEmail`. -/
def sC4 : Session :=
  ⟨"", 0, 0, "", "", [], "", "", "", "user@example.com", "", "", ""⟩

/-- C4 witness input: empty name, one email, two groups. -/
def sC4w : Session :=
  ⟨"", 0, 0, "", "", ["staff", "admin"], "", "", "", "e@example.com", "", "", ""⟩

/-- C6 witness input: an assertion whose recipient was resolved to a
non-empty URL, with an assertion buffer present. -/
def aC6 : Assertion :=
  { ID := "id-a6", IssueInstant := 0, Version := "2.0", Issuer := none,
    Signature := none,
    Subject := some
      { NameID := none
        SubjectConfirmation := some
          { Method := "urn:oasis:names:tc:SAML:2.0:cm:bearer"
            SubjectConfirmationData :=
              { Address := "", InResponseTo := "id-req-6", NotOnOrAfter := 0,
                Recipient := "https://sp.example/post" } } }
    Conditions := none, AuthnStatement := none, AttributeStatement := none }

/-- C6 witness request. -/
def reqC6 : IdpAuthnRequest :=
  { IDP := idpBase, Address := "", RelayState := "", RequestBuffer := [],
    Request := { ID := "id-req-6", AssertionConsumerServiceURL := "", Issuer := ⟨"", ""⟩ },
    ServiceProviderMetadata := none, ACSEndpoint := none,
    Assertion := some aC6, AssertionBuffer := some "ciphertext".toList,
    Response := none }

/-- The fully populated response value the error path of `MakeResponse`
leaves on the request when the recipient is empty: fresh identifier,
correlation id, issuer, success status, encrypted payload, empty
destination (stated for comparison with `makeResponseCore`). -/
def emptyDestResponse (req : IdpAuthnRequest) (rid : String) (now : Time) : Response :=
  { Destination := ""
    ID := rid
    InResponseTo := req.Request.ID
    IssueInstant := now
    Version := "2.0"
    Issuer := some { Format := "urn:oasis:names:tc:SAML:2.0:nameid-format:entity",
                     Value := req.IDP.MetadataURL }
    Status := some { StatusCode := { Value := StatusSuccess } }
    EncryptedAssertion := some { EncryptedData := req.AssertionBuffer } }

/-- C10 witness input: same request as `reqC6` but with an empty resolved
recipient. -/
def aC10 : Assertion :=
  { ID := "id-a10", IssueInstant := 0, Version := "2.0", Issuer := none,
    Signature := none,
    Subject := some
      { NameID := none
        SubjectConfirmation := some
          { Method := "urn:oasis:names:tc:SAML:2.0:cm:bearer"
            SubjectConfirmationData :=
              { Address := "", InResponseTo := "id-req-10", NotOnOrAfter := 0,
                Recipient := "" } } }
    Conditions := none, AuthnStatement := none, AttributeStatement := none }

/-- C10 witness request. -/
def reqC10 : IdpAuthnRequest :=
  { IDP := idpBase, Address := "", RelayState := "", RequestBuffer := [],
    Request := { ID := "id-req-10", AssertionConsumerServiceURL := "", Issuer := ⟨"", ""⟩ },
    ServiceProviderMetadata := none, ACSEndpoint := none,
    Assertion := some aC10, AssertionBuffer := some "ciphertext".toList,
    Response := none }

/-- C8 counterexample input: an identity provider with a configured
`SPMetadataURL` and a request that declares an issuer. -/
def reqC8 : IdpAuthnRequest :=
  { IDP := { idpBase with SPMetadataURL := "https://old.example/metadata" },
    Address := "", RelayState := "", RequestBuffer := [],
    Request := { ID := "id-req-8", AssertionConsumerServiceURL := "",
                 Issuer := ⟨"", "https://issuer.example/"⟩ },
    ServiceProviderMetadata := none, ACSEndpoint := none,
    Assertion := none, AssertionBuffer := none, Response := none }

/-- C8 witness input: a request carrying an assertion, for the
response-assembly part of the theorem. -/
def reqC8w : IdpAuthnRequest :=
  { IDP := { idpBase with SPMetadataURL := "https://old.example/metadata" },
    Address := "", RelayState := "", RequestBuffer := [],
    Request := { ID := "id-req-8w", AssertionConsumerServiceURL := "",
                 Issuer := ⟨"", "https://issuer.example/"⟩ },
    ServiceProviderMetadata := none, ACSEndpoint := none,
    Assertion := some
      { ID := "id-a8", IssueInstant := 0, Version := "2.0", Issuer := none,
        Signature := none,
        Subject := some
          { NameID := none
            SubjectConfirmation := some
              { Method := "urn:oasis:names:tc:SAML:2.0:cm:bearer"
                SubjectConfirmationData :=
                  { Address := "", InResponseTo := "id-req-8w", NotOnOrAfter := 0,
                    Recipient := "https://sp.example/acs" } } }
        Conditions := none, AuthnStatement := none, AttributeStatement := none },
    AssertionBuffer := some "ciphertext".toList, Response := none }

/-- An occurrence of `p` inside `a ++ t` lies inside `t`, lies inside `a`,
or crosses the boundary, in which case a nonempty suffix of `a` is a prefix
of `p`. -/
theorem infix_append_cases {p a t : List Char} (h : p <:+: a ++ t) :
    p <:+: t ∨ p <:+: a ∨ ∃ s1, s1 ≠ [] ∧ s1 <:+ a ∧ s1 <+: p := by
  obtain ⟨s, u, hsu⟩ := h
  have h1 : s ++ (p ++ u) = a ++ t := by simpa [List.append_assoc] using hsu
  rcases List.append_eq_append_iff.mp h1 with ⟨w, hw, h2⟩ | ⟨w, hw, h2⟩
  · -- a = s ++ w and p ++ u = w ++ t : the occurrence starts inside a
    rcases List.append_eq_append_iff.mp h2 with ⟨v, hv, h3⟩ | ⟨v, hv, h3⟩
    · -- w = p ++ v : p lies inside a
      refine Or.inr (Or.inl ⟨s, v, ?_⟩)
      simp [hw, hv, List.append_assoc]
    · -- p = w ++ v and t = v ++ u
      by_cases hwnil : w = []
      · refine Or.inl ⟨[], u, ?_⟩
        subst hwnil
        simp at hv
        simp [h3, hv]
      · exact Or.inr (Or.inr ⟨w, hwnil, ⟨s, hw.symm⟩, ⟨v, hv.symm⟩⟩)
  · -- s = a ++ w and t = w ++ (p ++ u) : the occurrence lies inside t
    refine Or.inl ⟨w, u, ?_⟩
    simp [h2, List.append_assoc]

theorem infix_append_left_iff {p a : List Char}
    (hna : ¬ p <:+: a)
    (hcross : ∀ s1 ∈ a.tails, s1 = [] ∨ ¬ s1 <+: p)
    (t : List Char) :
    (p <:+: a ++ t) ↔ p <:+: t := by
  constructor
  · intro h
    rcases infix_append_cases h with h | h | ⟨s1, hne, hsuf, hpre⟩
    · exact h
    · exact absurd h hna
    · rcases hcross s1 ((List.mem_tails s1 a).mpr hsuf) with h0 | h0
      · exact absurd h0 hne
      · exact absurd hpre h0
  · intro h
    exact h.trans (List.IsSuffix.isInfix (List.suffix_append a t))

/-- Dropping a leading run of characters rejected by the pattern's first
character does not change whether the pattern occurs. -/
theorem infix_dropWhile_iff (f : Char → Bool) {p : List Char}
    (hne : p ≠ []) (hh : f (p.headD ' ') = false) (t : List Char) :
    (p <:+: t.dropWhile f) ↔ p <:+: t := by
  obtain ⟨c, p', rfl⟩ := List.exists_cons_of_ne_nil hne
  simp only [List.headD_cons] at hh
  induction t with
  | nil => simp [List.dropWhile]
  | cons b t ih =>
    cases hb : f b with
    | true =>
      rw [List.dropWhile_cons, if_pos (by simp [hb]), ih]
      constructor
      · intro h
        exact h.trans (List.IsSuffix.isInfix (List.suffix_cons b t))
      · intro h
        rcases List.infix_cons_iff.mp h with hpre | hinf
        · rcases List.cons_prefix_cons.mp hpre with ⟨hcb, -⟩
          rw [hcb, hb] at hh
          cases hh
        · exact hinf
    | false =>
      rw [List.dropWhile_cons, if_neg (by simp [hb])]

/-- `p` occurs in `r.reverse` iff `p.reverse` occurs in `r`. -/
theorem infix_reverse_right {q r : List Char} :
    (q <:+: r.reverse) ↔ q.reverse <:+: r := by
  constructor
  · intro h
    have h1 := List.reverse_infix.mpr h
    rwa [List.reverse_reverse] at h1
  · intro h
    have h1 := List.reverse_infix.mpr h
    rwa [List.reverse_reverse] at h1

/-- Trimming white space at both ends does not change whether a pattern whose
first and last characters are not white space occurs. -/
theorem infix_trimSpace_iff {q : List Char} (hne : q ≠ [])
    (hc : goIsSpace (q.headD ' ') = false)
    (hd : goIsSpace (q.reverse.headD ' ') = false) (s : List Char) :
    (q <:+: trimSpace s) ↔ q <:+: s := by
  have hner : q.reverse ≠ [] := by
    simpa [List.reverse_eq_nil_iff] using hne
  unfold trimSpace trimRight trimLeft
  rw [infix_reverse_right, infix_dropWhile_iff goIsSpace hner hd,
    List.reverse_infix, infix_dropWhile_iff goIsSpace hne hc]

theorem sigfailed_msg_iff (s : List Char) :
    ("signature failed".toList <:+: xmlsecMsg s) ↔ "signature failed".toList <:+: s := by
  unfold xmlsecMsg
  rw [infix_append_left_iff (by decide) (by decide),
    infix_trimSpace_iff (by decide) (by decide) (by decide)]

theorem validityerr_msg_iff (s : List Char) :
    ("validity error".toList <:+: xmlsecMsg s) ↔ "validity error".toList <:+: s := by
  unfold xmlsecMsg
  rw [infix_append_left_iff (by decide) (by decide),
    infix_trimSpace_iff (by decide) (by decide) (by decide)]

theorem selfsigned_msg_iff (s : List Char) :
    ("msg=self signed certificate".toList <:+: xmlsecMsg s) ↔
      "msg=self signed certificate".toList <:+: s := by
  unfold xmlsecMsg
  rw [infix_append_left_iff (by decide) (by decide),
    infix_trimSpace_iff (by decide) (by decide) (by decide)]

theorem unknownissuer_msg_iff (s : List Char) :
    ("msg=unable to get local issuer certificate".toList <:+: xmlsecMsg s) ↔
      "msg=unable to get local issuer certificate".toList <:+: s := by
  unfold xmlsecMsg
  rw [infix_append_left_iff (by decide) (by decide),
    infix_trimSpace_iff (by decide) (by decide) (by decide)]

/-- C2: classification of a diagnostic string by `xmlsecErr` is
first-match-wins: a string beginning with "OK" yields no error; else one
containing "signature failed" yields the untyped error; else one containing
"validity error" yields `errValidityError`; else the self-signed marker
yields `errSelfSignedCertificate`; else the unknown-issuer marker yields
`errUnknownIssuer`; otherwise the untyped unclassified error is returned. -/
theorem xmlsecErr_classification (s : List Char) :
    (("OK".toList <+: s) → xmlsecErr s = none) ∧
    (¬ ("OK".toList <+: s) → ("signature failed".toList <:+: s) →
      xmlsecErr s = some (GoErr.errorString (xmlsecMsg s))) ∧
    (¬ ("OK".toList <+: s) → ¬ ("signature failed".toList <:+: s) →
      ("validity error".toList <:+: s) →
      xmlsecErr s = some (GoErr.errValidityError (xmlsecMsg s))) ∧
    (¬ ("OK".toList <+: s) → ¬ ("signature failed".toList <:+: s) →
      ¬ ("validity error".toList <:+: s) →
      ("msg=self signed certificate".toList <:+: s) →
      xmlsecErr s = some (GoErr.errSelfSignedCertificate (xmlsecMsg s))) ∧
    (¬ ("OK".toList <+: s) → ¬ ("signature failed".toList <:+: s) →
      ¬ ("validity error".toList <:+: s) →
      ¬ ("msg=self signed certificate".toList <:+: s) →
      ("msg=unable to get local issuer certificate".toList <:+: s) →
      xmlsecErr s = some (GoErr.errUnknownIssuer (xmlsecMsg s))) ∧
    (¬ ("OK".toList <+: s) → ¬ ("signature failed".toList <:+: s) →
      ¬ ("validity error".toList <:+: s) →
      ¬ ("msg=self signed certificate".toList <:+: s) →
      ¬ ("msg=unable to get local issuer certificate".toList <:+: s) →
      xmlsecErr s = some (GoErr.errorString (xmlsecMsg s))) := by
  refine ⟨?_, ?_, ?_, ?_, ?_, ?_⟩
  · intro hok
    unfold xmlsecErr
    rw [if_pos hok]
  · intro hok h1
    unfold xmlsecErr
    rw [if_neg hok, if_pos ((sigfailed_msg_iff s).mpr h1)]
  · intro hok h1 h2
    unfold xmlsecErr
    rw [if_neg hok, if_neg (fun h => h1 ((sigfailed_msg_iff s).mp h)),
      if_pos ((validityerr_msg_iff s).mpr h2)]
  · intro hok h1 h2 h3
    unfold xmlsecErr
    rw [if_neg hok, if_neg (fun h => h1 ((sigfailed_msg_iff s).mp h)),
      if_neg (fun h => h2 ((validityerr_msg_iff s).mp h)),
      if_pos ((selfsigned_msg_iff s).mpr h3)]
  · intro hok h1 h2 h3 h4
    unfold xmlsecErr
    rw [if_neg hok, if_neg (fun h => h1 ((sigfailed_msg_iff s).mp h)),
      if_neg (fun h => h2 ((validityerr_msg_iff s).mp h)),
      if_neg (fun h => h3 ((selfsigned_msg_iff s).mp h)),
      if_pos ((unknownissuer_msg_iff s).mpr h4)]
  · intro hok h1 h2 h3 h4
    unfold xmlsecErr
    rw [if_neg hok, if_neg (fun h => h1 ((sigfailed_msg_iff s).mp h)),
      if_neg (fun h => h2 ((validityerr_msg_iff s).mp h)),
      if_neg (fun h => h3 ((selfsigned_msg_iff s).mp h)),
      if_neg (fun h => h4 ((unknownissuer_msg_iff s).mp h))]

/-- Witness for the C2 theorem at a concrete diagnostic line of xmlsec1. -/
theorem xmlsecErr_classification_witness :
    xmlsecErr "x509 cert verify failed msg=self signed certificate".toList =
      some (GoErr.errSelfSignedCertificate
        (xmlsecMsg "x509 cert verify failed msg=self signed certificate".toList)) :=
  (xmlsecErr_classification "x509 cert verify failed msg=self signed certificate".toList).2.2.2.1
    (by decide) (by decide) (by decide) (by decide)

/-- C5 counterexample: a run whose diagnostic stream contains
"validity error" but whose stdout begins with "OK" makes `Verify` (and
`Sign`) return no error at all, because the combined string handed to
`xmlsecErr` begins with "OK" — so the operation does not fail for every
such run, contrary to the claim. -/
theorem validity_ok_out_cex :
    isValidityError "validity error".toList = true ∧
    verifyResult ⟨false, "OK".toList, "validity error".toList⟩ = none ∧
    (signResult ⟨false, "OK".toList, "validity error".toList⟩).2 = none := by
  refine ⟨by decide, ?_, ?_⟩ <;> decide

/-- C5 (amended): whenever the diagnostic stream contains "validity error",
`Verify` and `Sign` take the failure-classification path regardless of the
process exit status, returning `xmlsecErr` of stdout ++ "\n" ++ stderr; this
is the classified validity error whenever that combined string does not
begin with "OK" and does not contain "signature failed". -/
theorem validity_forces_error_path (r : ProcRun)
    (hv : "validity error".toList <:+: r.diag) :
    verifyResult r = xmlsecErr (r.out ++ '\n' :: r.diag) ∧
    (signResult r).2 = xmlsecErr (r.out ++ '\n' :: r.diag) ∧
    (¬ ("OK".toList <+: r.out ++ '\n' :: r.diag) →
      ¬ ("signature failed".toList <:+: r.out ++ '\n' :: r.diag) →
      verifyResult r = some (GoErr.errValidityError (xmlsecMsg (r.out ++ '\n' :: r.diag)))) := by
  have hval : isValidityError r.diag = true := by
    unfold isValidityError
    exact decide_eq_true hv
  have hlen : 0 < r.diag.length := by
    have h14 := hv.length_le
    simp at h14
    omega
  have hverify : verifyResult r = xmlsecErr (r.out ++ '\n' :: r.diag) := by
    unfold verifyResult
    rw [hval, if_pos (by simp), if_pos hlen]
  have hsign : (signResult r).2 = xmlsecErr (r.out ++ '\n' :: r.diag) := by
    unfold signResult
    rw [hval, if_pos (by simp), if_pos hlen]
  refine ⟨hverify, hsign, ?_⟩
  intro hok hsig
  have hvc : "validity error".toList <:+: r.out ++ '\n' :: r.diag := by
    refine hv.trans (List.IsSuffix.isInfix ⟨r.out ++ ['\n'], ?_⟩)
    simp
  rw [hverify]
  unfold xmlsecErr
  rw [if_neg hok,
    if_neg (fun h => hsig ((sigfailed_msg_iff (r.out ++ '\n' :: r.diag)).mp h)),
    if_pos ((validityerr_msg_iff (r.out ++ '\n' :: r.diag)).mpr hvc)]

/-- Witness for the C5 theorem at a concrete run: nonzero exit status,
empty stdout, a realistic validity diagnostic. -/
theorem validity_forces_error_path_witness :
    verifyResult ⟨true, [], "err=signature verification validity error".toList⟩ =
      some (GoErr.errValidityError
        (xmlsecMsg ('\n' :: "err=signature verification validity error".toList))) := by
  have h := validity_forces_error_path
    ⟨true, [], "err=signature verification validity error".toList⟩ (by decide)
  exact h.2.2 (by decide) (by decide)

/-- C3: an error is waivable (`IsSecurityException` returns `false`) exactly
when it is a self-signed-certificate error and `AllowSelfSignedCert` is set,
or an unknown-issuer error and `TrustUnknownAuthority` is set; every other
error kind — untyped signature failures, validity errors, unclassified and
raw process errors — is never waivable, whatever the configuration. -/
theorem security_exception_waiver (e : GoErr) (opts : SecurityOpts) :
    IsSecurityException e opts = false ↔
      ((∃ m, e = GoErr.errSelfSignedCertificate m) ∧ opts.AllowSelfSignedCert = true) ∨
      ((∃ m, e = GoErr.errUnknownIssuer m) ∧ opts.TrustUnknownAuthority = true) := by
  obtain ⟨a, t⟩ := opts
  cases e <;> cases a <;> cases t <;> simp [IsSecurityException]

theorem idattrs_foldl_shape (ids : List String) :
    ∀ acc : List String, ∃ extra,
      ids.foldl (fun a v => a ++ ["--id-attr:ID", v]) acc = acc ++ extra ∧
      ∀ x ∈ extra, x = "--id-attr:ID" ∨ x ∈ ids := by
  induction ids with
  | nil => exact fun acc => ⟨[], by simp⟩
  | cons v ids ih =>
    intro acc
    obtain ⟨extra, heq, hmem⟩ := ih (acc ++ ["--id-attr:ID", v])
    refine ⟨["--id-attr:ID", v] ++ extra, ?_, ?_⟩
    · simp only [List.foldl_cons, heq, List.append_assoc]
    · intro x hx
      simp only [List.cons_append, List.nil_append, List.mem_cons] at hx
      rcases hx with hx | hx | hx
      · exact Or.inl hx
      · exact Or.inr (by simp [hx])
      · rcases hmem x hx with h | h
        · exact Or.inl h
        · exact Or.inr (List.mem_cons_of_mem v h)

theorem applyOptions_shape (args : List String) (opts : Option ValidationOptions) :
    ∃ extra, applyOptions args opts = args ++ extra ∧
      ∀ x ∈ extra,
        x ∈ ["--dtd-file", "--id-attr:ID", attrNameResponse, attrNameAssertion,
          attrNameAuthnRequest] ∨
        ∃ o, opts = some o ∧ (x = o.DTDFile ∨ x ∈ o.IDAttrs) := by
  match opts with
  | none => exact ⟨[], by simp [applyOptions]⟩
  | some o =>
    simp only [applyOptions]
    split
    · -- EnableIDAttrHack is set
      split
      · -- a DTD file is configured
        obtain ⟨extra, heq, hmem⟩ := idattrs_foldl_shape o.IDAttrs
          ((args ++ ["--dtd-file", o.DTDFile]) ++
            ["--id-attr:ID", attrNameResponse, "--id-attr:ID", attrNameAssertion,
              "--id-attr:ID", attrNameAuthnRequest])
        refine ⟨(["--dtd-file", o.DTDFile] ++
          ["--id-attr:ID", attrNameResponse, "--id-attr:ID", attrNameAssertion,
            "--id-attr:ID", attrNameAuthnRequest]) ++ extra, ?_, ?_⟩
        · rw [heq]
          simp [List.append_assoc]
        · intro x hx
          simp only [List.cons_append, List.nil_append, List.mem_cons,
            List.mem_append] at hx
          rcases hx with hx | hx | hx | hx | hx | hx | hx | hx | hx
          · simp [hx]
          · exact Or.inr ⟨o, rfl, Or.inl hx⟩
          · simp [hx]
          · simp [hx]
          · simp [hx]
          · simp [hx]
          · simp [hx]
          · simp [hx]
          · rcases hmem x hx with h | h
            · simp [h]
            · exact Or.inr ⟨o, rfl, Or.inr h⟩
      · -- no DTD file
        obtain ⟨extra, heq, hmem⟩ := idattrs_foldl_shape o.IDAttrs
          (args ++ ["--id-attr:ID", attrNameResponse, "--id-attr:ID", attrNameAssertion,
            "--id-attr:ID", attrNameAuthnRequest])
        refine ⟨["--id-attr:ID", attrNameResponse, "--id-attr:ID", attrNameAssertion,
          "--id-attr:ID", attrNameAuthnRequest] ++ extra, ?_, ?_⟩
        · rw [heq]
          simp [List.append_assoc]
        · intro x hx
          simp only [List.cons_append, List.nil_append, List.mem_cons,
            List.mem_append] at hx
          rcases hx with hx | hx | hx | hx | hx | hx | hx
          · simp [hx]
          · simp [hx]
          · simp [hx]
          · simp [hx]
          · simp [hx]
          · simp [hx]
          · rcases hmem x hx with h | h
            · simp [h]
            · exact Or.inr ⟨o, rfl, Or.inr h⟩
    · -- EnableIDAttrHack is not set
      split
      · refine ⟨["--dtd-file", o.DTDFile], rfl, ?_⟩
        intro x hx
        simp only [List.mem_cons, List.not_mem_nil, or_false] at hx
        rcases hx with hx | hx
        · simp [hx]
        · exact Or.inr ⟨o, rfl, Or.inl hx⟩
      · exact ⟨[], by simp⟩

/-- C7: for every invocation of `Verify` and `Sign`, whatever the
`ValidationOptions`, the argument list contains the adjacent pair
`--enabled-reference-uris empty,same-doc`, and every argument is either one
of the fixed constant strings (none of which is "local"), the key/cert path,
or data taken verbatim from the options (the DTD file path and the ID-attr
names); in particular no option path can add or enable the "local"
reference-URI value. -/
theorem reference_uri_restriction (path : String) (opts : Option ValidationOptions) :
    (["--enabled-reference-uris", "empty,same-doc"] <:+: verifyArgs path opts) ∧
    (["--enabled-reference-uris", "empty,same-doc"] <:+: signArgs path opts) ∧
    (∀ x ∈ verifyArgs path opts, x ∈ verifyFixedArgs ∨ x = path ∨
      ∃ o, opts = some o ∧ (x = o.DTDFile ∨ x ∈ o.IDAttrs)) ∧
    (∀ x ∈ signArgs path opts, x ∈ signFixedArgs ∨ x = path ∨
      ∃ o, opts = some o ∧ (x = o.DTDFile ∨ x ∈ o.IDAttrs)) ∧
    "local" ∉ verifyFixedArgs ∧ "local" ∉ signFixedArgs := by
  obtain ⟨ev, hev, hmv⟩ := applyOptions_shape
    ["xmlsec1", "--verify", "--pubkey-cert-pem", path,
      "--enabled-reference-uris", "empty,same-doc"] opts
  obtain ⟨es, hes, hms⟩ := applyOptions_shape
    ["xmlsec1", "--sign", "--privkey-pem", path,
      "--enabled-reference-uris", "empty,same-doc"] opts
  refine ⟨?_, ?_, ?_, ?_, by decide, by decide⟩
  · unfold verifyArgs
    rw [hev]
    exact ⟨["xmlsec1", "--verify", "--pubkey-cert-pem", path],
      ev ++ ["/dev/stdin"], by simp⟩
  · unfold signArgs
    rw [hes]
    exact ⟨["xmlsec1", "--sign", "--privkey-pem", path],
      es ++ ["--output", "/dev/stdout", "/dev/stdin"], by simp⟩
  · intro x hx
    unfold verifyArgs at hx
    rw [hev] at hx
    simp only [List.append_assoc, List.mem_append] at hx
    rcases hx with hx | hx | hx
    · simp at hx
      rcases hx with hx | hx | hx | hx | hx | hx <;> simp [hx, verifyFixedArgs]
    · rcases hmv x hx with hx | hx
      · simp at hx
        rcases hx with hx | hx | hx | hx | hx <;> simp [hx, verifyFixedArgs]
      · exact Or.inr (Or.inr hx)
    · simp at hx
      simp [hx, verifyFixedArgs]
  · intro x hx
    unfold signArgs at hx
    rw [hes] at hx
    simp only [List.append_assoc, List.mem_append] at hx
    rcases hx with hx | hx | hx
    · simp at hx
      rcases hx with hx | hx | hx | hx | hx | hx <;> simp [hx, signFixedArgs]
    · rcases hms x hx with hx | hx
      · simp at hx
        rcases hx with hx | hx | hx | hx | hx <;> simp [hx, signFixedArgs]
      · exact Or.inr (Or.inr hx)
    · simp at hx
      rcases hx with hx | hx | hx <;> simp [hx, signFixedArgs]

/-- Witness for the C7 theorem at a concrete path and options value. -/
theorem reference_uri_restriction_witness :
    (["--enabled-reference-uris", "empty,same-doc"] <:+:
      verifyArgs "cert.pem" (some ⟨"", true, ["uri"]⟩)) ∧
    ("--id-attr:ID" ∈ verifyFixedArgs ∨ "--id-attr:ID" = "cert.pem" ∨
      ∃ o, (some (⟨"", true, ["uri"]⟩ : ValidationOptions)) = some o ∧
        ("--id-attr:ID" = o.DTDFile ∨ "--id-attr:ID" ∈ o.IDAttrs)) :=
  ⟨(reference_uri_restriction "cert.pem" (some ⟨"", true, ["uri"]⟩)).1,
    (reference_uri_restriction "cert.pem" (some ⟨"", true, ["uri"]⟩)).2.2.1
      "--id-attr:ID" (by decide)⟩

/-- C9: in all four gateway invocations the input is written and closed
first, then the result stream is drained in full, then the diagnostic
stream, and only then does the invocation wait — draining is strictly
sequential and never overlaps input writing, so the concurrent-drain
property the claim asserts does not hold of the code. -/
theorem sign_encrypt_stream_order :
    drainsDuringWrite signOps = false ∧
    drainsDuringWrite encryptOps = false ∧
    drainsDuringWrite verifyOps = false ∧
    drainsDuringWrite decryptOps = false ∧
    signOps.indexOf GatewayOp.closeInput < signOps.indexOf GatewayOp.drainOut ∧
    signOps.indexOf GatewayOp.drainOut < signOps.indexOf GatewayOp.drainErr ∧
    signOps.indexOf GatewayOp.drainErr < signOps.indexOf GatewayOp.wait ∧
    encryptOps.indexOf GatewayOp.closeInput < encryptOps.indexOf GatewayOp.drainOut ∧
    encryptOps.indexOf GatewayOp.drainOut < encryptOps.indexOf GatewayOp.drainErr ∧
    encryptOps.indexOf GatewayOp.drainErr < encryptOps.indexOf GatewayOp.wait := by
  decide

/-- C1 counterexample: with no explicit endpoint and metadata containing no
POST-binding endpoint, the code resolves the recipient to the empty string —
it does not fall back to the request-declared URL as the claim asserts. -/
theorem recipient_fallback_cex :
    recipientOf reqC1 = "" ∧
    reqC1.ACSEndpoint = none ∧
    (∃ m d, reqC1.ServiceProviderMetadata = some m ∧ m.SPSSODescriptor = some d ∧
      d.AssertionConsumerService.find?
        (fun acs => acs.Binding == "urn:oasis:names:tc:SAML:2.0:bindings:HTTP-POST") = none) ∧
    reqC1.Request.AssertionConsumerServiceURL = "https://sp.example/acs" := by
  refine ⟨by decide, rfl, ⟨_, _, rfl, rfl, by decide⟩, rfl⟩

/-- C1 (amended): recipient resolution follows this precedence: an
explicitly supplied assertion-consumer endpoint wins; else, when
service-provider metadata with an SSO descriptor is present, the first
endpoint with the HTTP-POST binding is chosen and the result is empty when
none exists (the request URL is not consulted); only when no metadata (or
no descriptor) is present is the request-declared URL used; and the
assertion built by `MakeAssertion` carries exactly this value as the
subject-confirmation recipient. -/
theorem recipient_resolution (req : IdpAuthnRequest) :
    (∀ e, req.ACSEndpoint = some e → recipientOf req = e.Location) ∧
    (∀ m d, req.ACSEndpoint = none → req.ServiceProviderMetadata = some m →
      m.SPSSODescriptor = some d →
      recipientOf req =
        (match d.AssertionConsumerService.find?
            (fun acs => acs.Binding == "urn:oasis:names:tc:SAML:2.0:bindings:HTTP-POST") with
         | some acs => acs.Location
         | none => "")) ∧
    (req.ACSEndpoint = none →
      (req.ServiceProviderMetadata = none ∨
        ∃ m, req.ServiceProviderMetadata = some m ∧ m.SPSSODescriptor = none) →
      recipientOf req = req.Request.AssertionConsumerServiceURL) ∧
    (∀ session newId now cert, ∃ subj sc,
      (makeAssertion req session newId now cert).Subject = some subj ∧
      subj.SubjectConfirmation = some sc ∧
      sc.SubjectConfirmationData.Recipient = recipientOf req) := by
  refine ⟨?_, ?_, ?_, ?_⟩
  · intro e he
    simp only [recipientOf, he]
  · intro m d hacs hm hd
    simp only [recipientOf, hacs, hm, hd]
  · intro hacs hm
    rcases hm with hm | ⟨m, hm, hd⟩
    · simp only [recipientOf, hacs, hm]
    · simp only [recipientOf, hacs, hm, hd]
  · intro session newId now cert
    exact ⟨_, _, rfl, rfl, rfl⟩

/-- Witness for the C1 theorem: the explicit endpoint's location is chosen. -/
theorem recipient_resolution_witness :
    recipientOf reqC1w = "https://sp.example/post" :=
  (recipient_resolution reqC1w).1
    ⟨"urn:oasis:names:tc:SAML:2.0:bindings:HTTP-POST", "https://sp.example/post"⟩ rfl

theorem mem_ite_singleton {α : Type} {c : Prop} [Decidable c] {a x : α}
    (h : a ∈ if c then [x] else []) : c ∧ a = x := by
  split at h
  · exact ⟨‹c›, by simpa using h⟩
  · simp at h

theorem length_ite_singleton {α : Type} {c : Prop} [Decidable c] (x : α) :
    (if c then [x] else []).length = if c then 1 else 0 := by
  split <;> rfl

theorem filter_ite_singleton {α : Type} (p : α → Bool) {c : Prop} [Decidable c] (x : α) :
    (if c then [x] else []).filter p =
      if c then (if p x then [x] else []) else [] := by
  split <;> simp [List.filter_singleton]

/-- Membership in `makeAttributes`: every attribute is one of the nine
conditional blocks, with its guard satisfied. -/
theorem mem_makeAttributes {s : Session} {a : Attribute} (ha : a ∈ makeAttributes s) :
    (s.UserName ≠ "" ∧ a =
      { FriendlyName := "uid", Name := "urn:oid:0.9.2342.19200300.100.1.1",
        NameFormat := "urn:oasis:names:tc:SAML:2.0:attrname-format:uri",
        Values := [{ «Type» := "xs:string", Value := s.UserName }] }) ∨
    (s.UserEmail ≠ "" ∧ a =
      { FriendlyName := "eduPersonPrincipalName", Name := "urn:oid:1.3.6.1.4.1.5923.1.1.1.6",
        NameFormat := "urn:oasis:names:tc:SAML:2.0:attrname-format:uri",
        Values := [{ «Type» := "xs:string", Value := s.UserEmail }] }) ∨
    (s.UserSurname ≠ "" ∧ a =
      { FriendlyName := "sn", Name := "urn:oid:2.5.4.4",
        NameFormat := "urn:oasis:names:tc:SAML:2.0:attrname-format:uri",
        Values := [{ «Type» := "xs:string", Value := s.UserSurname }] }) ∨
    (s.UserGivenName ≠ "" ∧ a =
      { FriendlyName := "givenName", Name := "urn:oid:2.5.4.42",
        NameFormat := "urn:oasis:names:tc:SAML:2.0:attrname-format:uri",
        Values := [{ «Type» := "xs:string", Value := s.UserGivenName }] }) ∨
    (s.UserCommonName ≠ "" ∧ a =
      { FriendlyName := "cn", Name := "urn:oid:2.5.4.3",
        NameFormat := "urn:oasis:names:tc:SAML:2.0:attrname-format:uri",
        Values := [{ «Type» := "xs:string", Value := s.UserCommonName }] }) ∨
    (s.UserID ≠ "" ∧ a =
      { FriendlyName := "MASTUsername", Name := "userid", NameFormat := "",
        Values := [{ «Type» := "xs:string", Value := s.UserID }] }) ∨
    (s.UserEmail ≠ "" ∧ a =
      { FriendlyName := "MASTEmail", Name := "email", NameFormat := "",
        Values := [{ «Type» := "xs:string", Value := s.UserEmail }] }) ∨
    (s.UserFullname ≠ "" ∧ a =
      { FriendlyName := "MASTName", Name := "fullname", NameFormat := "",
        Values := [{ «Type» := "xs:string", Value := s.UserFullname }] }) ∨
    (s.Groups ≠ [] ∧ a =
      { FriendlyName := "eduPersonAffiliation", Name := "urn:oid:1.3.6.1.4.1.5923.1.1.1.1",
        NameFormat := "urn:oasis:names:tc:SAML:2.0:attrname-format:uri",
        Values := s.Groups.map (fun group => { «Type» := "xs:string", Value := group }) }) := by
  simp only [makeAttributes, List.append_assoc, List.mem_append] at ha
  rcases ha with ha | ha | ha | ha | ha | ha | ha | ha | ha
  · exact Or.inl (mem_ite_singleton ha)
  · exact Or.inr (Or.inl (mem_ite_singleton ha))
  · exact Or.inr (Or.inr (Or.inl (mem_ite_singleton ha)))
  · exact Or.inr (Or.inr (Or.inr (Or.inl (mem_ite_singleton ha))))
  · exact Or.inr (Or.inr (Or.inr (Or.inr (Or.inl (mem_ite_singleton ha)))))
  · exact Or.inr (Or.inr (Or.inr (Or.inr (Or.inr (Or.inl (mem_ite_singleton ha))))))
  · exact Or.inr (Or.inr (Or.inr (Or.inr (Or.inr (Or.inr (Or.inl (mem_ite_singleton ha)))))))
  · exact Or.inr (Or.inr (Or.inr (Or.inr (Or.inr (Or.inr (Or.inr
      (Or.inl (mem_ite_singleton ha))))))))
  · exact Or.inr (Or.inr (Or.inr (Or.inr (Or.inr (Or.inr (Or.inr
      (Or.inr (mem_ite_singleton ha))))))))

/-- C4 (amended): the attribute statement holds one entry per non-empty
session field under the fixed mapping, except that a non-empty `UserEmail`
contributes two entries (`eduPersonPrincipalName` and `MASTEmail`); empty
fields contribute nothing at all; and a non-empty group list contributes
exactly one attribute carrying one value per group. -/
theorem attribute_statement_shape (s : Session) :
    ((makeAttributes s).length =
      (if s.UserName ≠ "" then 1 else 0) + (if s.UserEmail ≠ "" then 2 else 0) +
      (if s.UserSurname ≠ "" then 1 else 0) + (if s.UserGivenName ≠ "" then 1 else 0) +
      (if s.UserCommonName ≠ "" then 1 else 0) + (if s.UserID ≠ "" then 1 else 0) +
      (if s.UserFullname ≠ "" then 1 else 0) + (if s.Groups ≠ [] then 1 else 0)) ∧
    ((makeAttributes s).filter (fun a => a.FriendlyName == "eduPersonAffiliation") =
      if s.Groups ≠ [] then
        [{ FriendlyName := "eduPersonAffiliation", Name := "urn:oid:1.3.6.1.4.1.5923.1.1.1.1",
           NameFormat := "urn:oasis:names:tc:SAML:2.0:attrname-format:uri",
           Values := s.Groups.map (fun group => { «Type» := "xs:string", Value := group }) }]
      else []) ∧
    (s.Groups ≠ [] → ∃ a,
      (makeAttributes s).filter (fun a => a.FriendlyName == "eduPersonAffiliation") = [a] ∧
      a.Values.length = s.Groups.length) ∧
    (s.UserName = "" → ∀ a ∈ makeAttributes s, a.FriendlyName ≠ "uid") ∧
    (s.UserEmail = "" → ∀ a ∈ makeAttributes s,
      a.FriendlyName ≠ "eduPersonPrincipalName" ∧ a.FriendlyName ≠ "MASTEmail") ∧
    (s.UserSurname = "" → ∀ a ∈ makeAttributes s, a.FriendlyName ≠ "sn") ∧
    (s.UserGivenName = "" → ∀ a ∈ makeAttributes s, a.FriendlyName ≠ "givenName") ∧
    (s.UserCommonName = "" → ∀ a ∈ makeAttributes s, a.FriendlyName ≠ "cn") ∧
    (s.UserID = "" → ∀ a ∈ makeAttributes s, a.FriendlyName ≠ "MASTUsername") ∧
    (s.UserFullname = "" → ∀ a ∈ makeAttributes s, a.FriendlyName ≠ "MASTName") ∧
    (s.Groups = [] → ∀ a ∈ makeAttributes s, a.FriendlyName ≠ "eduPersonAffiliation") ∧
    (s.UserEmail ≠ "" →
      ((makeAttributes s).filter
        (fun a => a.FriendlyName == "eduPersonPrincipalName" ||
          a.FriendlyName == "MASTEmail")).length = 2) := by
  have hfil : (makeAttributes s).filter (fun a => a.FriendlyName == "eduPersonAffiliation") =
      if s.Groups ≠ [] then
        [{ FriendlyName := "eduPersonAffiliation", Name := "urn:oid:1.3.6.1.4.1.5923.1.1.1.1",
           NameFormat := "urn:oasis:names:tc:SAML:2.0:attrname-format:uri",
           Values := s.Groups.map (fun group => { «Type» := "xs:string", Value := group }) }]
      else [] := by
    simp only [makeAttributes, List.filter_append, filter_ite_singleton]
    simp
  refine ⟨?_, hfil, ?_, ?_, ?_, ?_, ?_, ?_, ?_, ?_, ?_, ?_⟩
  · simp only [makeAttributes, List.length_append, length_ite_singleton]
    by_cases he : s.UserEmail = "" <;> (simp [he]; try omega)
  · intro hg
    rw [hfil, if_pos hg]
    exact ⟨_, rfl, by simp⟩
  · intro h a ha
    rcases mem_makeAttributes ha with ⟨hc, rfl⟩ | ⟨hc, rfl⟩ | ⟨hc, rfl⟩ | ⟨hc, rfl⟩ |
      ⟨hc, rfl⟩ | ⟨hc, rfl⟩ | ⟨hc, rfl⟩ | ⟨hc, rfl⟩ | ⟨hc, rfl⟩ <;>
      first
      | exact absurd h hc
      | simp
  · intro h a ha
    rcases mem_makeAttributes ha with ⟨hc, rfl⟩ | ⟨hc, rfl⟩ | ⟨hc, rfl⟩ | ⟨hc, rfl⟩ |
      ⟨hc, rfl⟩ | ⟨hc, rfl⟩ | ⟨hc, rfl⟩ | ⟨hc, rfl⟩ | ⟨hc, rfl⟩ <;>
      first
      | exact absurd h hc
      | simp
  · intro h a ha
    rcases mem_makeAttributes ha with ⟨hc, rfl⟩ | ⟨hc, rfl⟩ | ⟨hc, rfl⟩ | ⟨hc, rfl⟩ |
      ⟨hc, rfl⟩ | ⟨hc, rfl⟩ | ⟨hc, rfl⟩ | ⟨hc, rfl⟩ | ⟨hc, rfl⟩ <;>
      first
      | exact absurd h hc
      | simp
  · intro h a ha
    rcases mem_makeAttributes ha with ⟨hc, rfl⟩ | ⟨hc, rfl⟩ | ⟨hc, rfl⟩ | ⟨hc, rfl⟩ |
      ⟨hc, rfl⟩ | ⟨hc, rfl⟩ | ⟨hc, rfl⟩ | ⟨hc, rfl⟩ | ⟨hc, rfl⟩ <;>
      first
      | exact absurd h hc
      | simp
  · intro h a ha
    rcases mem_makeAttributes ha with ⟨hc, rfl⟩ | ⟨hc, rfl⟩ | ⟨hc, rfl⟩ | ⟨hc, rfl⟩ |
      ⟨hc, rfl⟩ | ⟨hc, rfl⟩ | ⟨hc, rfl⟩ | ⟨hc, rfl⟩ | ⟨hc, rfl⟩ <;>
      first
      | exact absurd h hc
      | simp
  · intro h a ha
    rcases mem_makeAttributes ha with ⟨hc, rfl⟩ | ⟨hc, rfl⟩ | ⟨hc, rfl⟩ | ⟨hc, rfl⟩ |
      ⟨hc, rfl⟩ | ⟨hc, rfl⟩ | ⟨hc, rfl⟩ | ⟨hc, rfl⟩ | ⟨hc, rfl⟩ <;>
      first
      | exact absurd h hc
      | simp
  · intro h a ha
    rcases mem_makeAttributes ha with ⟨hc, rfl⟩ | ⟨hc, rfl⟩ | ⟨hc, rfl⟩ | ⟨hc, rfl⟩ |
      ⟨hc, rfl⟩ | ⟨hc, rfl⟩ | ⟨hc, rfl⟩ | ⟨hc, rfl⟩ | ⟨hc, rfl⟩ <;>
      first
      | exact absurd h hc
      | simp
  · intro h a ha
    rcases mem_makeAttributes ha with ⟨hc, rfl⟩ | ⟨hc, rfl⟩ | ⟨hc, rfl⟩ | ⟨hc, rfl⟩ |
      ⟨hc, rfl⟩ | ⟨hc, rfl⟩ | ⟨hc, rfl⟩ | ⟨hc, rfl⟩ | ⟨hc, rfl⟩ <;>
      first
      | exact absurd h hc
      | simp
  · intro he
    simp only [makeAttributes, List.filter_append, filter_ite_singleton,
      List.length_append, apply_ite List.length]
    simp [he]

/-- C4 counterexample: a session with one non-empty field (`UserEmail`)
yields two attribute entries, not one. -/
theorem attr_count_cex :
    (makeAttributes sC4).length = 2 ∧ specAttrCount sC4 = 1 ∧
    (makeAttributes sC4).length ≠ specAttrCount sC4 := by
  decide

/-- Witness for the C4 theorem at a concrete session. -/
theorem attribute_statement_shape_witness :
    ((makeAttributes sC4w).filter
      (fun a => a.FriendlyName == "eduPersonAffiliation")).length = 1 ∧
    (∀ a ∈ makeAttributes sC4w, a.FriendlyName ≠ "uid") := by
  have h := attribute_statement_shape sC4w
  refine ⟨?_, h.2.2.2.1 rfl⟩
  rw [h.2.1]
  decide

/-- C6: `MakeResponse` sets the outer response's destination to the
recipient resolved inside the assertion's subject-confirmation data; it
fails with the structural missing-destination error (an untyped error, not
one of the classified security kinds) exactly when that value is empty, and
succeeds with that destination when it is not. -/
theorem makeResponse_destination (req : IdpAuthnRequest) (rid : String) (now : Time)
    (a : Assertion) (subj : Subject) (sc : SubjectConfirmation)
    (ha : req.Assertion = some a) (hs : a.Subject = some subj)
    (hc : subj.SubjectConfirmation = some sc) :
    ∃ req' e, makeResponseCore req rid now = some (req', e) ∧
      (∃ resp, req'.Response = some resp ∧
        resp.Destination = sc.SubjectConfirmationData.Recipient) ∧
      (sc.SubjectConfirmationData.Recipient = "" →
        e = some (GoErr.errorString "missing response destination".toList)) ∧
      (sc.SubjectConfirmationData.Recipient ≠ "" → e = none) := by
  by_cases hr : sc.SubjectConfirmationData.Recipient = ""
  · simp only [makeResponseCore, ha, hs, hc]
    rw [if_pos hr]
    exact ⟨_, _, rfl, ⟨_, rfl, rfl⟩, fun _ => rfl, fun h => absurd hr h⟩
  · simp only [makeResponseCore, ha, hs, hc]
    rw [if_neg hr]
    exact ⟨_, _, rfl, ⟨_, rfl, rfl⟩, fun h => absurd h hr, fun _ => rfl⟩

/-- Witness for the C6 theorem: with the non-empty recipient above, response
assembly succeeds and the destination is that recipient. -/
theorem makeResponse_destination_witness :
    (makeResponseCore reqC6 "id-resp-6" 0).map
      (fun p => ((p.1.Response).map Response.Destination, p.2)) =
      some (some "https://sp.example/post", none) := by
  obtain ⟨req', e, heq, ⟨resp, hresp, hdest⟩, -, hne⟩ :=
    makeResponse_destination reqC6 "id-resp-6" 0 aC6 _ _ rfl rfl rfl
  rw [heq, hne (by decide)]
  simp [hresp, hdest]

/-- C10: when the recipient inside the assertion is empty, `MakeResponse`
returns the missing-destination error, but `req.Response` has nevertheless
already been assigned the fully populated response value: fresh identifier,
correlation id, issuer, success status, encrypted payload and an empty
destination. -/
theorem makeResponse_error_populates_response (req : IdpAuthnRequest) (rid : String)
    (now : Time) (a : Assertion) (subj : Subject) (sc : SubjectConfirmation)
    (ha : req.Assertion = some a) (hs : a.Subject = some subj)
    (hc : subj.SubjectConfirmation = some sc)
    (hr : sc.SubjectConfirmationData.Recipient = "") :
    makeResponseCore req rid now = some
      ({ req with Response := some (emptyDestResponse req rid now) },
        some (GoErr.errorString "missing response destination".toList)) := by
  simp [makeResponseCore, ha, hs, hc, hr, emptyDestResponse]

/-- Witness for the C10 theorem at the concrete request above. -/
theorem makeResponse_error_populates_response_witness :
    makeResponseCore reqC10 "id-resp-10" 0 = some
      ({ reqC10 with Response := some (emptyDestResponse reqC10 "id-resp-10" 0) },
        some (GoErr.errorString "missing response destination".toList)) :=
  makeResponse_error_populates_response reqC10 "id-resp-10" 0 aC10 _ _ rfl rfl rfl rfl

/-- C8 (amended): along `MarshalAssertion`'s success path the
`IdentityProvider` is mutated: `SPMetadataURL` is reassigned from the
request issuer (else the metadata entity id, else empty) and `SPMetadata`
may be filled by the metadata fetch when it was unset; every other field is
left unchanged, and the response-assembly step of `MakeResponse` leaves the
whole `IdentityProvider` untouched. -/
theorem marshal_idp_effect :
    (∀ (req : IdpAuthnRequest) (fetched : Option Metadata),
      (marshalAssertionIDP req fetched).EntityID = req.IDP.EntityID ∧
      (marshalAssertionIDP req fetched).MetadataURL = req.IDP.MetadataURL ∧
      (marshalAssertionIDP req fetched).SSOURL = req.IDP.SSOURL ∧
      (marshalAssertionIDP req fetched).SecurityOpts = req.IDP.SecurityOpts ∧
      (marshalAssertionIDP req fetched).KeyFile = req.IDP.KeyFile ∧
      (marshalAssertionIDP req fetched).CertFile = req.IDP.CertFile ∧
      (marshalAssertionIDP req fetched).PrivkeyPEM = req.IDP.PrivkeyPEM ∧
      (marshalAssertionIDP req fetched).PubkeyPEM = req.IDP.PubkeyPEM ∧
      (marshalAssertionIDP req fetched).SPAcsURL = req.IDP.SPAcsURL ∧
      (marshalAssertionIDP req fetched).SPMetadataURL = spMetadataURLUpdate req ∧
      ((marshalAssertionIDP req fetched).SPMetadata = req.IDP.SPMetadata ∨
        (req.IDP.SPMetadata = none ∧
          (marshalAssertionIDP req fetched).SPMetadata = fetched))) ∧
    (∀ (req : IdpAuthnRequest) (rid : String) (now : Time) r e,
      makeResponseCore req rid now = some (r, e) → r.IDP = req.IDP) := by
  constructor
  · intro req fetched
    simp only [marshalAssertionIDP, getSPMetadata]
    cases hm : req.IDP.SPMetadata with
    | some m => simp [hm]
    | none =>
      simp only [hm]
      split
      · simp [hm]
      · cases fetched with
        | some meta => simp [hm]
        | none => simp [hm]
  · intro req rid now r e h
    simp only [makeResponseCore] at h
    cases hA : req.Assertion with
    | none => simp [hA] at h
    | some a =>
      simp only [hA] at h
      cases hS : a.Subject with
      | none => simp [hS] at h
      | some subj =>
        simp only [hS] at h
        cases hC : subj.SubjectConfirmation with
        | none => simp [hC] at h
        | some sc =>
          simp only [hC] at h
          split at h
          all_goals
            injection h with h'
            injection h' with h1 h2
            rw [← h1]

/-- C8 counterexample: `MarshalAssertion` overwrites the identity provider's
`SPMetadataURL` with the request issuer — the configuration does not come
out unchanged. -/
theorem sp_metadata_url_mutation_cex :
    (marshalAssertionIDP reqC8 none).SPMetadataURL = "https://issuer.example/" ∧
    reqC8.IDP.SPMetadataURL = "https://old.example/metadata" ∧
    (marshalAssertionIDP reqC8 none).SPMetadataURL ≠ reqC8.IDP.SPMetadataURL := by
  decide

/-- Witness for the C8 theorem at concrete inputs. -/
theorem marshal_idp_effect_witness :
    (marshalAssertionIDP reqC8w none).EntityID = reqC8w.IDP.EntityID ∧
    ((makeResponseCore reqC8w "id-resp-8" 0).map (fun p => p.1.IDP)) =
      some reqC8w.IDP := by
  refine ⟨(marshal_idp_effect.1 reqC8w none).1, ?_⟩
  cases h0 : makeResponseCore reqC8w "id-resp-8" 0 with
  | none => exact absurd h0 (by decide)
  | some p =>
    obtain ⟨r, e⟩ := p
    have h1 := marshal_idp_effect.2 reqC8w "id-resp-8" 0 r e h0
    simp [h1]

end Saml
